import Mathlib

/-!
Verification of `float-duration`'s `src/duration.rs`.

The crate stores a duration as a single `f64` count of seconds.  We embed
`f64` as an idealized IEEE-754-style value: a sign bit plus an exact
rational magnitude, together with signed infinities and NaN.  The
idealization is that finite magnitudes are exact rationals (no 53-bit
mantissa rounding and no overflow of finite arithmetic to infinity).
Every computation appearing in the claims below is exact in binary64, or
(for decimal literals such as `0.30`) rounds identically on both sides of
the compared expressions, so the Boolean outcome of each claim is the same
in this model as on real hardware.  Sign handling — signed zeros, the sign
of exact-zero sums and differences, sign-bit tests, and the
infinity/NaN results of division by zero — follows IEEE 754 exactly,
because several claims are specifically about it.

Integer-typed values (`u64`, `u32`, `i64`) are embedded as `Nat`/`Int`
with the casts made explicit (Rust float-to-int `as` casts saturate).

Rational arithmetic inside the embedding goes through `Rat.divInt`
(`qadd`/`qmul`/`qdiv` below) rather than Mathlib's `@[irreducible]`
field operations, so that closed-form runs of the embedded code can be
evaluated by `decide`; the bridge lemmas `qadd_eq`, `qmul_eq`, `qdiv_eq`
identify them with the ordinary operations for symbolic reasoning.
-/

namespace FloatDurationSpec

/-- Decidable equality for `Except`, needed to evaluate runs of the
fallible conversions by `decide`. -/
instance {ε α : Type} [DecidableEq ε] [DecidableEq α] : DecidableEq (Except ε α) := fun x y =>
  match x, y with
  | .error a, .error b => if h : a = b then .isTrue (by rw [h]) else .isFalse (by simp [h])
  | .ok a, .ok b => if h : a = b then .isTrue (by rw [h]) else .isFalse (by simp [h])
  | .error _, .ok _ => .isFalse (by simp)
  | .ok _, .error _ => .isFalse (by simp)

/-- Kernel-reducible addition on `ℚ` (same value as `a + b`). -/
def qadd (a b : ℚ) : ℚ :=
  Rat.divInt (a.num * (b.den : ℤ) + b.num * (a.den : ℤ)) ((a.den : ℤ) * (b.den : ℤ))

/-- Kernel-reducible multiplication on `ℚ` (same value as `a * b`). -/
def qmul (a b : ℚ) : ℚ :=
  Rat.divInt (a.num * b.num) ((a.den : ℤ) * (b.den : ℤ))

/-- Kernel-reducible division on `ℚ` (same value as `a / b`). -/
def qdiv (a b : ℚ) : ℚ :=
  Rat.divInt (a.num * (b.den : ℤ)) ((a.den : ℤ) * b.num)

/-- Embedding of Rust `f64`: a finite value is a sign bit (`true` = the
IEEE sign bit is set, i.e. negative) plus a nonnegative exact rational
magnitude; infinities carry a sign; NaN is a single point (its sign bit is
taken as clear, matching the usual positive NaN). -/
inductive F64 where
  | finite (sign : Bool) (mag : ℚ)
  | inf (sign : Bool)
  | nan
deriving DecidableEq, Repr

namespace F64

/-- The real value represented by a sign bit and a magnitude. -/
def sval (sign : Bool) (mag : ℚ) : ℚ := if sign then -mag else mag

/-- The rational value of a finite `F64` (junk `0` on `inf`/`nan`). -/
def toRat : F64 → ℚ
  | finite s m => sval s m
  | _ => 0

/-- Is the value finite? -/
def isFinite : F64 → Bool
  | finite _ _ => true
  | _ => false

/-- Rust `f64::is_sign_negative`: the IEEE sign bit. -/
def isSignNegative : F64 → Bool
  | finite s _ => s
  | inf s => s
  | nan => false

/-- Rust `f64::is_sign_positive`: negation of the sign bit. -/
def isSignPositive (x : F64) : Bool := !x.isSignNegative

/-- IEEE `==` (`-0.0 == 0.0`, NaN unequal to everything). -/
def beq : F64 → F64 → Bool
  | finite s1 m1, finite s2 m2 => decide (sval s1 m1 = sval s2 m2)
  | inf s1, inf s2 => s1 == s2
  | _, _ => false

/-- IEEE `<` (NaN incomparable; `-0.0 < 0.0` is false). -/
def lt : F64 → F64 → Bool
  | finite s1 m1, finite s2 m2 => decide (sval s1 m1 < sval s2 m2)
  | finite _ _, inf s2 => !s2
  | inf s1, finite _ _ => s1
  | inf s1, inf s2 => s1 && !s2
  | _, _ => false

/-- IEEE `>`. -/
def gt (x y : F64) : Bool := lt y x

/-- IEEE negation: flips the sign bit. -/
def neg : F64 → F64
  | finite s m => finite (!s) m
  | inf s => inf (!s)
  | nan => nan

/-- Rust `f64::abs`: clears the sign bit. -/
def fabs : F64 → F64
  | finite _ m => finite false m
  | inf _ => inf false
  | nan => nan

/-- IEEE addition.  An exact-zero sum is `-0.0` exactly when both addends
have their sign bit set (round-to-nearest rule). -/
def add : F64 → F64 → F64
  | finite s1 m1, finite s2 m2 =>
      let v := qadd (sval s1 m1) (sval s2 m2)
      if v = 0 then finite (s1 && s2) 0
      else if v < 0 then finite true (-v) else finite false v
  | finite _ _, inf s => inf s
  | inf s, finite _ _ => inf s
  | inf s1, inf s2 => if s1 == s2 then inf s1 else nan
  | _, _ => nan

/-- IEEE subtraction, as `x + (-y)` (an exact IEEE identity). -/
def sub (x y : F64) : F64 := add x y.neg

/-- IEEE multiplication (sign bits xor; `inf * 0` is NaN). -/
def mul : F64 → F64 → F64
  | finite s1 m1, finite s2 m2 => finite (Bool.xor s1 s2) (qmul m1 m2)
  | finite s1 m1, inf s2 => if m1 = 0 then nan else inf (Bool.xor s1 s2)
  | inf s1, finite s2 m2 => if m2 = 0 then nan else inf (Bool.xor s1 s2)
  | inf s1, inf s2 => inf (Bool.xor s1 s2)
  | _, _ => nan

/-- IEEE division (sign bits xor; `x / 0` is a signed infinity for
nonzero finite `x` and NaN for `0 / 0`; `inf / inf` is NaN). -/
def div : F64 → F64 → F64
  | finite s1 m1, finite s2 m2 =>
      if m2 = 0 then
        (if m1 = 0 then nan else inf (Bool.xor s1 s2))
      else finite (Bool.xor s1 s2) (qdiv m1 m2)
  | finite s1 _, inf s2 => finite (Bool.xor s1 s2) 0
  | inf s1, finite s2 _ => inf (Bool.xor s1 s2)
  | _, _ => nan

/-- Rust `f64::trunc`: rounds toward zero, so it floors the magnitude. -/
def trunc : F64 → F64
  | finite s m => finite s ((Rat.floor m : ℤ) : ℚ)
  | inf s => inf s
  | nan => nan

/-- Rust `f64::fract`, defined (as in `std`) as `self - self.trunc()`. -/
def fract (x : F64) : F64 := sub x x.trunc

/-- Rust saturating float-to-unsigned cast `as` with `bound` the maximum
value of the target type: truncates toward zero, clamps to
`[0, bound]`, and sends NaN to `0`. -/
def toUnsigned (bound : Nat) : F64 → Nat
  | finite s m => if s then 0 else min (Rat.floor m).toNat bound
  | inf s => if s then 0 else bound
  | nan => 0

/-- Rust `as u64` on an `f64`. -/
def toU64 (x : F64) : Nat := toUnsigned (2 ^ 64 - 1) x

/-- Rust `as u32` on an `f64`. -/
def toU32 (x : F64) : Nat := toUnsigned (2 ^ 32 - 1) x

/-- Embedding of a Rust `u64`/`u32` integer cast `as f64`
(idealized exact; exact on every value the claims touch). -/
def ofNat (n : Nat) : F64 := finite false n

/-- Embedding of a Rust `i64 as f64` cast (idealized exact). -/
def ofInt (i : Int) : F64 := finite (decide (i < 0)) ((i.natAbs : ℕ) : ℚ)

end F64

/-- The constant `std::u64::MAX as f64`.  `u64::MAX = 2^64 - 1` is not
representable in binary64; the cast rounds to nearest, producing
exactly `2^64 = 18446744073709551616`. -/
def u64MaxAsF64 : F64 := F64.finite false 18446744073709551616

/-- The constant `std::f64::MAX`, i.e. `(2^53 - 1) * 2^971`. -/
def f64Max : F64 := F64.finite false (((2 ^ 53 - 1) * 2 ^ 971 : ℕ) : ℚ)

/-- `NANOS_PER_SEC: f64 = 1.0e9`. -/
def NANOS_PER_SEC : F64 := F64.finite false 1000000000

/-- `MICROS_PER_SEC: f64 = 1.0e6`. -/
def MICROS_PER_SEC : F64 := F64.finite false 1000000

/-- `MILLIS_PER_SEC: f64 = 1.0e3`. -/
def MILLIS_PER_SEC : F64 := F64.finite false 1000

/-- `SECS_PER_MINUTE: f64 = 60.0`. -/
def SECS_PER_MINUTE : F64 := F64.finite false 60

/-- `SECS_PER_HOUR: f64 = SECS_PER_MINUTE * 60.0 = 3600.0`. -/
def SECS_PER_HOUR : F64 := F64.finite false 3600

/-- `SECS_PER_DAY: f64 = SECS_PER_HOUR * 24.0 = 86400.0`. -/
def SECS_PER_DAY : F64 := F64.finite false 86400

/-- The duration type: `struct FloatDuration { secs: f64 }`. -/
structure FloatDuration where
  secs : F64
deriving DecidableEq, Repr

/-- The error type of the crate.  Modelled from the spec: the `error`
module is not under `src/`; the spec names an `OutOfRange` error kind for
the system-duration conversion and for the calendar-duration conversion
(the source matches on `DurationError::StdOutOfRange`; the calendar
library's failure is carried into the same error type by a `From`
conversion). -/
inductive DurationError where
  | StdOutOfRange
  | ChronoOutOfRange
deriving DecidableEq, Repr

/-- `std::time::Duration`: whole seconds (`u64`) plus sub-second
nanoseconds (`u32`, kept below `10^9`). -/
structure StdDuration where
  secs : Nat
  nanos : Nat
deriving DecidableEq, Repr

/-- `std::time::Duration::new`: carries whole seconds out of the
nanosecond argument (the `u64` overflow panic is unreachable here since
`to_std` only passes `nanos < 10^9`). -/
def StdDuration.new (secs nanos : Nat) : StdDuration :=
  ⟨secs + nanos / 1000000000, nanos % 1000000000⟩

namespace FloatDuration

/-- `FloatDuration::days`. -/
def days (d : F64) : FloatDuration := ⟨d.mul SECS_PER_DAY⟩

/-- `FloatDuration::hours`. -/
def hours (h : F64) : FloatDuration := ⟨h.mul SECS_PER_HOUR⟩

/-- `FloatDuration::minutes`. -/
def minutes (m : F64) : FloatDuration := ⟨m.mul SECS_PER_MINUTE⟩

/-- `FloatDuration::seconds`. -/
def seconds (s : F64) : FloatDuration := ⟨s⟩

/-- `FloatDuration::milliseconds`. -/
def milliseconds (ms : F64) : FloatDuration := ⟨ms.div MILLIS_PER_SEC⟩

/-- `FloatDuration::microseconds`. -/
def microseconds (us : F64) : FloatDuration := ⟨us.div MICROS_PER_SEC⟩

/-- `FloatDuration::nanoseconds`. -/
def nanoseconds (ns : F64) : FloatDuration := ⟨ns.div NANOS_PER_SEC⟩

/-- `FloatDuration::as_days`. -/
def as_days (d : FloatDuration) : F64 := d.secs.div SECS_PER_DAY

/-- `FloatDuration::as_hours`. -/
def as_hours (d : FloatDuration) : F64 := d.secs.div SECS_PER_HOUR

/-- `FloatDuration::as_minutes`. -/
def as_minutes (d : FloatDuration) : F64 := d.secs.div SECS_PER_MINUTE

/-- `FloatDuration::as_seconds`. -/
def as_seconds (d : FloatDuration) : F64 := d.secs

/-- `FloatDuration::as_milliseconds`. -/
def as_milliseconds (d : FloatDuration) : F64 := d.secs.mul MILLIS_PER_SEC

/-- `FloatDuration::as_microseconds`. -/
def as_microseconds (d : FloatDuration) : F64 := d.secs.mul MICROS_PER_SEC

/-- `FloatDuration::as_nanoseconds`. -/
def as_nanoseconds (d : FloatDuration) : F64 := d.secs.mul NANOS_PER_SEC

/-- `FloatDuration::abs`. -/
def fabs (d : FloatDuration) : FloatDuration := ⟨d.secs.fabs⟩

/-- `FloatDuration::zero`. -/
def zero : FloatDuration := ⟨F64.finite false 0⟩

/-- `FloatDuration::is_zero`: `self.secs == 0.0` (IEEE equality, so
`-0.0` also counts as zero). -/
def is_zero (d : FloatDuration) : Bool := d.secs.beq (F64.finite false 0)

/-- `FloatDuration::is_positive`: `self.secs.is_sign_positive()`. -/
def is_positive (d : FloatDuration) : Bool := d.secs.isSignPositive

/-- `FloatDuration::is_negative`: `self.secs.is_sign_negative()`. -/
def is_negative (d : FloatDuration) : Bool := d.secs.isSignNegative

/-- `FloatDuration::min_value`: `f64::MIN` seconds. -/
def min_value : FloatDuration := ⟨f64Max.neg⟩

/-- `FloatDuration::max_value`: `f64::MAX` seconds. -/
def max_value : FloatDuration := ⟨f64Max⟩

/-- Derived `PartialEq` on `FloatDuration`: IEEE `==` of the `secs`
fields. -/
def beq (d e : FloatDuration) : Bool := d.secs.beq e.secs

/-- `FloatDuration::to_std` (`src/duration.rs:154-167`): fails when the
sign bit is set; otherwise truncates, fails when the truncation exceeds
`u64::MAX as f64`, and otherwise builds
`std::time::Duration::new(seconds as u64, (fract * 1e9) as u32)`. -/
def to_std (d : FloatDuration) : Except DurationError StdDuration :=
  if d.secs.isSignNegative then .error .StdOutOfRange
  else
    let seconds := d.secs.trunc
    let nanos := d.secs.fract.mul NANOS_PER_SEC
    if seconds.gt u64MaxAsF64 then .error .StdOutOfRange
    else .ok (StdDuration.new seconds.toU64 nanos.toU32)

/-- `FloatDuration::from_std` (`src/duration.rs:170-173`):
`seconds(duration.as_secs() as f64 + duration.subsec_nanos() as f64 / NANOS_PER_SEC)`. -/
def from_std (duration : StdDuration) : FloatDuration :=
  seconds ((F64.ofNat duration.secs).add ((F64.ofNat duration.nanos).div NANOS_PER_SEC))

/-- `ops::Neg`. -/
def oneg (d : FloatDuration) : FloatDuration := ⟨d.secs.neg⟩

/-- `ops::Add<FloatDuration>`. -/
def oadd (d rhs : FloatDuration) : FloatDuration := ⟨d.secs.add rhs.secs⟩

/-- `ops::Sub<FloatDuration>`. -/
def osub (d rhs : FloatDuration) : FloatDuration := ⟨d.secs.sub rhs.secs⟩

/-- `ops::Mul<f64>`. -/
def omul (d : FloatDuration) (rhs : F64) : FloatDuration := ⟨d.secs.mul rhs⟩

/-- `ops::Div<f64>`: divides the seconds field by the scalar. -/
def odiv (d : FloatDuration) (rhs : F64) : FloatDuration := ⟨d.secs.div rhs⟩

/-- `ops::Div<FloatDuration>`: the scalar ratio of the seconds fields. -/
def odiv_dur (d rhs : FloatDuration) : F64 := d.secs.div rhs.secs

/-- The `fmt::Display` implementation (`src/duration.rs:265-283`),
modelled as the pair (numeric value printed, unit word printed): the
thresholds compare the signed `secs` field with strict `>`. -/
def displayParts (d : FloatDuration) : F64 × String :=
  if d.secs.gt SECS_PER_DAY then (d.as_days, "days")
  else if d.secs.gt SECS_PER_HOUR then (d.as_hours, "hours")
  else if d.secs.gt SECS_PER_MINUTE then (d.as_minutes, "minutes")
  else if d.secs.gt (F64.finite false 1) then (d.as_seconds, "seconds")
  else if d.secs.gt (F64.finite false (mkRat 1 1000)) then (d.as_milliseconds, "milliseconds")
  else if d.secs.gt (F64.finite false (mkRat 1 1000000)) then (d.as_microseconds, "microseconds")
  else (d.as_nanoseconds, "nanoseconds")

/-- The display rule as the spec words it (for comparison with
`displayParts`): select the largest unit whose MAGNITUDE strictly
exceeds the threshold, and print the magnitude expressed in that
unit. -/
def specDisplayParts (d : FloatDuration) : F64 × String :=
  if d.secs.fabs.gt SECS_PER_DAY then (d.fabs.as_days, "days")
  else if d.secs.fabs.gt SECS_PER_HOUR then (d.fabs.as_hours, "hours")
  else if d.secs.fabs.gt SECS_PER_MINUTE then (d.fabs.as_minutes, "minutes")
  else if d.secs.fabs.gt (F64.finite false 1) then (d.fabs.as_seconds, "seconds")
  else if d.secs.fabs.gt (F64.finite false (mkRat 1 1000)) then
    (d.fabs.as_milliseconds, "milliseconds")
  else if d.secs.fabs.gt (F64.finite false (mkRat 1 1000000)) then
    (d.fabs.as_microseconds, "microseconds")
  else (d.fabs.as_nanoseconds, "nanoseconds")

end FloatDuration

/-- `chrono::Duration` (external calendar library).  Modelled from the
spec: a signed duration held as whole seconds (`i64`) plus a sub-second
nanosecond part kept in `[0, 10^9)`, whose magnitude is bounded by
`i64::MAX` milliseconds. -/
structure ChronoDuration where
  secs : Int
  nanos : Int
deriving DecidableEq, Repr

namespace ChronoDuration

/-- Modelled from the spec: negation of the external signed calendar
duration, renormalizing the nanosecond part into `[0, 10^9)`. -/
def cneg (d : ChronoDuration) : ChronoDuration :=
  if d.nanos = 0 then ⟨-d.secs, 0⟩ else ⟨-d.secs - 1, 1000000000 - d.nanos⟩

/-- Modelled from the spec: the external library's total-nanosecond
accessor, which fails (returns `none`) when the total does not fit the
signed 64-bit nanosecond range. -/
def num_nanoseconds (d : ChronoDuration) : Option Int :=
  let t := d.secs * 1000000000 + d.nanos
  if -(2 ^ 63) ≤ t ∧ t ≤ 2 ^ 63 - 1 then some t else none

/-- Modelled from the spec: the external library's millisecond-granularity
accessor (total milliseconds, truncated toward zero). -/
def num_milliseconds (d : ChronoDuration) : Int :=
  let wholeSecs := if d.secs < 0 ∧ 0 < d.nanos then d.secs + 1 else d.secs
  let nanosRem := if d.secs < 0 ∧ 0 < d.nanos then d.nanos - 1000000000 else d.nanos
  wholeSecs * 1000 + Int.tdiv nanosRem 1000000

end ChronoDuration

/-- `chrono::Duration::from_std`.  Modelled from the spec: the external
library's own conversion from the unsigned system duration, which fails
when the magnitude exceeds the library's range of `i64::MAX`
milliseconds (that bound is `⌊(2^63-1)/1000⌋` seconds plus
`((2^63-1) % 1000) * 10^6` nanoseconds); the failure reaches the crate's
error type as its calendar-out-of-range kind. -/
def chronoFromStd (sd : StdDuration) : Except DurationError ChronoDuration :=
  let maxSecs : Nat := (2 ^ 63 - 1) / 1000
  let maxNanos : Nat := ((2 ^ 63 - 1) % 1000) * 1000000
  if sd.secs > maxSecs ∨ (sd.secs = maxSecs ∧ sd.nanos > maxNanos) then
    .error .ChronoOutOfRange
  else .ok ⟨(sd.secs : Int), (sd.nanos : Int)⟩

namespace FloatDuration

/-- `FloatDuration::to_chrono` (`src/duration.rs:183-192`): remembers the
sign bit, converts the absolute value through `to_std` and the external
library's `from_std` (each `?` propagating the error), then negates the
result when the original was negative. -/
def to_chrono (d : FloatDuration) : Except DurationError ChronoDuration :=
  let isNeg := d.is_negative
  match d.fabs.to_std with
  | .error e => .error e
  | .ok sd =>
    match chronoFromStd sd with
    | .error e => .error e
    | .ok cd => if isNeg then .ok cd.cneg else .ok cd

/-- `FloatDuration::from_chrono` (`src/duration.rs:200-206`): uses the
total-nanosecond accessor when it does not overflow, and otherwise falls
back to millisecond precision. -/
def from_chrono (duration : ChronoDuration) : FloatDuration :=
  match duration.num_nanoseconds with
  | some nanos => nanoseconds (F64.ofInt nanos)
  | none => milliseconds (F64.ofInt duration.num_milliseconds)

end FloatDuration

section Lemmas

open FloatDuration

lemma qmul_eq (a b : ℚ) : qmul a b = a * b := by
  unfold qmul
  rw [Rat.divInt_eq_div]
  push_cast
  rw [← div_mul_div_comm, Rat.num_div_den, Rat.num_div_den]

lemma qadd_eq (a b : ℚ) : qadd a b = a + b := by
  have ha : ((a.den : ℚ)) ≠ 0 := by exact_mod_cast a.den_nz
  have hb : ((b.den : ℚ)) ≠ 0 := by exact_mod_cast b.den_nz
  unfold qadd
  rw [Rat.divInt_eq_div]
  push_cast
  conv_rhs => rw [← Rat.num_div_den a, ← Rat.num_div_den b]
  rw [div_add_div _ _ ha hb]
  ring_nf

lemma qdiv_eq (a b : ℚ) : qdiv a b = a / b := by
  rcases eq_or_ne b 0 with hb | hb
  · subst hb
    unfold qdiv
    norm_num
  · have ha : ((a.den : ℚ)) ≠ 0 := by exact_mod_cast a.den_nz
    have hbd : ((b.den : ℚ)) ≠ 0 := by exact_mod_cast b.den_nz
    have hbn : ((b.num : ℚ)) ≠ 0 := by
      exact_mod_cast Rat.num_ne_zero.mpr hb
    unfold qdiv
    rw [Rat.divInt_eq_div]
    push_cast
    rw [div_eq_div_iff (mul_ne_zero ha hbn) hb]
    have key : ∀ q : ℚ, (q.num : ℚ) = q * q.den := by
      intro q
      have hq : ((q.den : ℚ)) ≠ 0 := by exact_mod_cast q.den_nz
      calc (q.num : ℚ) = ((q.num : ℚ) / q.den) * q.den := by field_simp
      _ = q * q.den := by rw [Rat.num_div_den]
    rw [key a, key b]
    ring

lemma F64.add_ff (a b : ℚ) (ha : 0 ≤ a) (hb : 0 ≤ b) :
    F64.add (F64.finite false a) (F64.finite false b) = F64.finite false (a + b) := by
  have hab : 0 ≤ a + b := add_nonneg ha hb
  simp only [F64.add, F64.sval, Bool.false_eq_true, if_false, Bool.false_and, qadd_eq]
  rcases eq_or_lt_of_le hab with h | h
  · rw [if_pos h.symm, ← h]
  · rw [if_neg (ne_of_gt h), if_neg (not_lt.mpr hab)]

lemma F64.div_ff (a b : ℚ) (hb : b ≠ 0) :
    F64.div (F64.finite false a) (F64.finite false b) = F64.finite false (a / b) := by
  simp [F64.div, hb, qdiv_eq]

lemma F64.mul_ff (a b : ℚ) :
    F64.mul (F64.finite false a) (F64.finite false b) = F64.finite false (a * b) := by
  simp [F64.mul, qmul_eq]

lemma F64.trunc_ff (m : ℚ) :
    F64.trunc (F64.finite false m) = F64.finite false ((⌊m⌋ : ℤ) : ℚ) := rfl

lemma F64.fract_ff (m : ℚ) :
    F64.fract (F64.finite false m) = F64.finite false (m - ⌊m⌋) := by
  have hle : ((⌊m⌋ : ℤ) : ℚ) ≤ m := Int.floor_le m
  show F64.add (F64.finite false m) (F64.neg (F64.finite false ((Rat.floor m : ℤ) : ℚ))) = _
  rw [show (Rat.floor m : ℤ) = ⌊m⌋ from rfl]
  simp only [F64.neg, Bool.not_false, F64.add, F64.sval, Bool.false_eq_true, if_false, if_true,
    Bool.false_and, qadd_eq]
  by_cases h : m + -((⌊m⌋ : ℤ) : ℚ) = 0
  · rw [if_pos h]
    have h0 : m - ((⌊m⌋ : ℤ) : ℚ) = 0 := by linarith
    rw [h0]
  · rw [if_neg h, if_neg (not_lt.mpr (by linarith)), show m + -((⌊m⌋ : ℤ) : ℚ) = m - ⌊m⌋ from by
      ring]

lemma from_std_secs (s n : Nat) :
    (FloatDuration.from_std ⟨s, n⟩).secs =
      F64.finite false ((s : ℚ) + (n : ℚ) / 10 ^ 9) := by
  show ((F64.ofNat s).add ((F64.ofNat n).div NANOS_PER_SEC)) = _
  rw [show F64.ofNat n = F64.finite false (n : ℚ) from rfl,
    show NANOS_PER_SEC = F64.finite false 1000000000 from rfl,
    F64.div_ff _ _ (by norm_num),
    show F64.ofNat s = F64.finite false (s : ℚ) from rfl,
    F64.add_ff _ _ (by positivity) (by positivity)]
  norm_num

lemma to_std_ok (m : ℚ) (h0 : 0 ≤ m) (h1 : ⌊m⌋ ≤ (2 : ℤ) ^ 64 - 1) :
    (FloatDuration.seconds (F64.finite false m)).to_std =
      Except.ok ⟨⌊m⌋.toNat, (⌊(m - ⌊m⌋) * 10 ^ 9⌋).toNat⟩ := by
  have hfl0 : (0 : ℤ) ≤ ⌊m⌋ := Int.floor_nonneg.mpr h0
  have hfr0 : (0 : ℚ) ≤ m - ⌊m⌋ := sub_nonneg.mpr (Int.floor_le m)
  have hfr1 : m - ((⌊m⌋ : ℤ) : ℚ) < 1 := by
    have := Int.lt_floor_add_one m; linarith
  have hnano0 : (0 : ℤ) ≤ ⌊(m - ⌊m⌋) * 10 ^ 9⌋ := Int.floor_nonneg.mpr (by positivity)
  have hnano1 : ⌊(m - ⌊m⌋) * 10 ^ 9⌋ < 10 ^ 9 := by
    rw [Int.floor_lt]
    push_cast
    nlinarith
  show (if (F64.finite false m).isSignNegative then _ else _) = _
  rw [show (F64.finite false m).isSignNegative = false from rfl]
  simp only [Bool.false_eq_true, if_false]
  rw [show (FloatDuration.seconds (F64.finite false m)).secs = F64.finite false m from rfl]
  rw [show ((F64.finite false m).trunc).gt u64MaxAsF64 =
      decide ((18446744073709551616 : ℚ) < ((⌊m⌋ : ℤ) : ℚ)) from rfl]
  have hlt : ¬((18446744073709551616 : ℚ) < ((⌊m⌋ : ℤ) : ℚ)) := by
    have h2 : ((⌊m⌋ : ℤ) : ℚ) ≤ (((2 : ℤ) ^ 64 - 1 : ℤ) : ℚ) := by exact_mod_cast h1
    push_cast at h2
    linarith
  rw [decide_eq_false hlt]
  simp only [Bool.false_eq_true, if_false]
  rw [show (F64.finite false m).trunc.toU64 =
      min (Rat.floor ((⌊m⌋ : ℤ) : ℚ)).toNat (2 ^ 64 - 1) from rfl]
  rw [show (Rat.floor ((⌊m⌋ : ℤ) : ℚ) : ℤ) = ⌊((⌊m⌋ : ℤ) : ℚ)⌋ from rfl, Int.floor_intCast]
  have hA : min (⌊m⌋.toNat) (2 ^ 64 - 1) = ⌊m⌋.toNat := by
    refine min_eq_left ?_
    rw [Int.toNat_le]
    calc (⌊m⌋ : ℤ) ≤ (2 : ℤ) ^ 64 - 1 := h1
    _ = ((2 ^ 64 - 1 : ℕ) : ℤ) := by norm_num
  rw [hA]
  rw [F64.fract_ff m, show NANOS_PER_SEC = F64.finite false 1000000000 from rfl, F64.mul_ff]
  rw [show ((1000000000 : ℚ)) = 10 ^ 9 from by norm_num]
  rw [show (F64.finite false ((m - (⌊m⌋ : ℤ)) * 10 ^ 9)).toU32 =
      min (Rat.floor ((m - (⌊m⌋ : ℤ)) * 10 ^ 9)).toNat (2 ^ 32 - 1) from rfl]
  rw [show (Rat.floor ((m - (⌊m⌋ : ℤ)) * 10 ^ 9) : ℤ) = ⌊(m - (⌊m⌋ : ℤ)) * 10 ^ 9⌋ from rfl]
  have hB : min (⌊(m - (⌊m⌋ : ℤ)) * 10 ^ 9⌋.toNat) (2 ^ 32 - 1) =
      ⌊(m - (⌊m⌋ : ℤ)) * 10 ^ 9⌋.toNat := by
    refine min_eq_left ?_
    rw [Int.toNat_le]
    calc ⌊(m - (⌊m⌋ : ℤ)) * 10 ^ 9⌋ ≤ 10 ^ 9 := le_of_lt hnano1
    _ ≤ ((2 ^ 32 - 1 : ℕ) : ℤ) := by norm_num
  rw [hB]
  have hBsmall : ⌊(m - (⌊m⌋ : ℤ)) * 10 ^ 9⌋.toNat < 1000000000 := by
    omega
  show Except.ok (StdDuration.new _ _) = _
  rw [show StdDuration.new (⌊m⌋.toNat) (⌊(m - (⌊m⌋ : ℤ)) * 10 ^ 9⌋.toNat) =
      ⟨⌊m⌋.toNat + ⌊(m - (⌊m⌋ : ℤ)) * 10 ^ 9⌋.toNat / 1000000000,
       ⌊(m - (⌊m⌋ : ℤ)) * 10 ^ 9⌋.toNat % 1000000000⟩ from rfl]
  rw [Nat.div_eq_of_lt hBsmall, Nat.mod_eq_of_lt hBsmall, Nat.add_zero]

lemma div_zero_not_finite (x : F64) : (x.div (F64.finite false 0)).isFinite = false := by
  cases x with
  | finite s m => by_cases h : m = 0 <;> simp [F64.div, h, F64.isFinite]
  | inf s => rfl
  | nan => rfl

end Lemmas

section Claims

open FloatDuration

set_option maxRecDepth 8192
set_option exponentiation.threshold 1100

/-- Claim C1: the claim says `to_std` fails with `OutOfRange` whenever the
truncated whole-seconds component exceeds `u64::MAX`, and on success
returns exactly the truncation.  The code disagrees at seconds
`= 18446744073709551616.0` (exactly `2^64`, a representable `f64` whose
truncation exceeds `u64::MAX = 2^64 - 1`): because `u64::MAX as f64`
rounds up to `2^64`, the guard `seconds > u64::MAX as f64` admits it, and
the saturating cast returns `Ok` with seconds component `u64::MAX` —
contradicting the function's own doc comment.  This theorem evaluates the
embedded code at that input. -/
theorem C1_to_std_saturates_beyond_u64_max :
    FloatDuration.to_std (FloatDuration.seconds (F64.finite false 18446744073709551616)) =
      Except.ok ⟨18446744073709551615, 0⟩ ∧
    ((18446744073709551615 : ℚ)) <
      (FloatDuration.seconds (F64.finite false 18446744073709551616)).secs.trunc.toRat := by
  constructor
  · decide
  · decide

/-- Claim C2, counterexample: the display rule selects by the SIGNED
seconds value, not by magnitude.  At `FloatDuration::minutes(-90.0)`
(magnitude 5400 s > 3600 s) the spec's magnitude rule picks hours, but
the code prints nanoseconds. -/
theorem C2_display_counterexample :
    FloatDuration.displayParts (FloatDuration.minutes (F64.finite true 90)) =
      (F64.finite true 5400000000000, "nanoseconds") ∧
    FloatDuration.specDisplayParts (FloatDuration.minutes (F64.finite true 90)) =
      (F64.finite false (mkRat 3 2), "hours") ∧
    FloatDuration.displayParts (FloatDuration.minutes (F64.finite true 90)) ≠
      FloatDuration.specDisplayParts (FloatDuration.minutes (F64.finite true 90)) := by
  refine ⟨by decide, by decide, by decide⟩

/-- Claim C2 (amended): `Display` selects the largest unit whose SIGNED
seconds value strictly exceeds its threshold (so for every duration whose
sign bit is clear it agrees with the magnitude rule, while negative
durations always print in nanoseconds); in particular exactly 3600
seconds displays in minutes, and `FloatDuration::minutes(90.0)` displays
as `1.5 hours`. -/
theorem C2_display_amended :
    (∀ d : FloatDuration, d.secs.isSignNegative = false →
      FloatDuration.displayParts d = FloatDuration.specDisplayParts d) ∧
    FloatDuration.displayParts (FloatDuration.seconds (F64.finite false 3600)) =
      (F64.finite false 60, "minutes") ∧
    FloatDuration.displayParts (FloatDuration.minutes (F64.finite false 90)) =
      (F64.finite false (mkRat 3 2), "hours") := by
  refine ⟨?_, by decide, by decide⟩
  rintro ⟨x⟩ h
  cases x with
  | finite s m =>
    cases s with
    | false => rfl
    | true => exact absurd h (by simp [F64.isSignNegative])
  | inf s =>
    cases s with
    | false => rfl
    | true => exact absurd h (by simp [F64.isSignNegative])
  | nan => rfl

/-- Claim C2 witness: the amended universal statement applied at
`FloatDuration::minutes(90.0)`. -/
theorem C2_display_amended_witness :
    (FloatDuration.minutes (F64.finite false 90)).secs.isSignNegative = false ∧
    FloatDuration.displayParts (FloatDuration.minutes (F64.finite false 90)) =
      FloatDuration.specDisplayParts (FloatDuration.minutes (F64.finite false 90)) :=
  ⟨by decide, C2_display_amended.1 _ (by decide)⟩

/-- Claim C3: for every non-negative duration whose whole-second count is
within the unsigned 64-bit range, `from_std (to_std d)` reproduces `d` to
within one nanosecond; every sign-negative duration fails `to_std` with
`OutOfRange`; and `max_value().to_std()` fails with `OutOfRange`. -/
theorem C3_std_round_trip :
    (∀ m : ℚ, 0 ≤ m → ⌊m⌋ ≤ (2 : ℤ) ^ 64 - 1 →
      ∃ sd : StdDuration,
        (FloatDuration.seconds (F64.finite false m)).to_std = Except.ok sd ∧
        |(FloatDuration.from_std sd).secs.toRat - m| < 1 / 10 ^ 9) ∧
    (∀ d : FloatDuration, d.is_negative = true →
      d.to_std = Except.error DurationError.StdOutOfRange) ∧
    FloatDuration.max_value.to_std = Except.error DurationError.StdOutOfRange := by
  refine ⟨?_, ?_, by decide⟩
  · intro m h0 h1
    refine ⟨_, to_std_ok m h0 h1, ?_⟩
    have hfl0 : (0 : ℤ) ≤ ⌊m⌋ := Int.floor_nonneg.mpr h0
    have hfr0 : (0 : ℚ) ≤ m - ⌊m⌋ := sub_nonneg.mpr (Int.floor_le m)
    have hnano0 : (0 : ℤ) ≤ ⌊(m - ⌊m⌋) * 10 ^ 9⌋ := Int.floor_nonneg.mpr (by positivity)
    rw [from_std_secs]
    rw [show F64.toRat (F64.finite false
        ((⌊m⌋.toNat : ℚ) + ((⌊(m - ⌊m⌋) * 10 ^ 9⌋.toNat : ℚ)) / 10 ^ 9)) =
        (⌊m⌋.toNat : ℚ) + ((⌊(m - ⌊m⌋) * 10 ^ 9⌋.toNat : ℚ)) / 10 ^ 9 from rfl]
    have e1 : ((⌊m⌋.toNat : ℚ)) = ((⌊m⌋ : ℤ) : ℚ) := by exact_mod_cast Int.toNat_of_nonneg hfl0
    have e2 : ((⌊(m - ⌊m⌋) * 10 ^ 9⌋.toNat : ℚ)) = ((⌊(m - ⌊m⌋) * 10 ^ 9⌋ : ℤ) : ℚ) := by
      exact_mod_cast Int.toNat_of_nonneg hnano0
    rw [e1, e2]
    have hl : ((⌊(m - ⌊m⌋) * 10 ^ 9⌋ : ℤ) : ℚ) ≤ (m - ⌊m⌋) * 10 ^ 9 := Int.floor_le _
    have hr : (m - ⌊m⌋) * 10 ^ 9 - 1 < ((⌊(m - ⌊m⌋) * 10 ^ 9⌋ : ℤ) : ℚ) :=
      Int.sub_one_lt_floor _
    have h9 : (0 : ℚ) < 10 ^ 9 := by positivity
    have hl2 : ((⌊(m - ⌊m⌋) * 10 ^ 9⌋ : ℤ) : ℚ) / 10 ^ 9 ≤ m - ⌊m⌋ := by
      rw [div_le_iff₀ h9]; exact hl
    have hr2 : (m - ⌊m⌋) - 1 / 10 ^ 9 < ((⌊(m - ⌊m⌋) * 10 ^ 9⌋ : ℤ) : ℚ) / 10 ^ 9 := by
      rw [lt_div_iff₀ h9, show ((m - ⌊m⌋) - 1 / 10 ^ 9) * 10 ^ 9 = (m - ⌊m⌋) * 10 ^ 9 - 1 from by
        ring]
      exact hr
    rw [abs_lt]
    constructor <;> linarith
  · intro d h
    show (if d.secs.isSignNegative then _ else _) = _
    rw [show d.secs.isSignNegative = true from h]
    rfl

/-- Claim C3 witness: the round trip at 1.5 seconds and the failure at
-5.0 seconds, by applying `C3_std_round_trip` at those inputs. -/
theorem C3_std_round_trip_witness :
    ((0 : ℚ) ≤ mkRat 3 2 ∧ ⌊(mkRat 3 2 : ℚ)⌋ ≤ (2 : ℤ) ^ 64 - 1 ∧
      (FloatDuration.seconds (F64.finite true 5)).is_negative = true) ∧
    (∃ sd : StdDuration,
      (FloatDuration.seconds (F64.finite false (mkRat 3 2))).to_std = Except.ok sd ∧
      |(FloatDuration.from_std sd).secs.toRat - mkRat 3 2| < 1 / 10 ^ 9) ∧
    (FloatDuration.seconds (F64.finite true 5)).to_std =
      Except.error DurationError.StdOutOfRange :=
  ⟨⟨by decide, by decide, by decide⟩,
   C3_std_round_trip.1 (mkRat 3 2) (by decide) (by decide),
   C3_std_round_trip.2.1 (FloatDuration.seconds (F64.finite true 5)) (by decide)⟩

/-- Claim C4: `from_std` is total (it is a plain function into
`FloatDuration`, with no error path) and for every system duration the
result is the seconds-based duration whose value is the whole-seconds
component plus the nanosecond component divided by 1e9. -/
theorem C4_from_std_total :
    ∀ sd : StdDuration, FloatDuration.from_std sd =
      FloatDuration.seconds (F64.finite false ((sd.secs : ℚ) + (sd.nanos : ℚ) / 10 ^ 9)) := by
  rintro ⟨s, n⟩
  have h := from_std_secs s n
  calc FloatDuration.from_std ⟨s, n⟩ = ⟨(FloatDuration.from_std ⟨s, n⟩).secs⟩ := rfl
  _ = FloatDuration.seconds (F64.finite false ((s : ℚ) + (n : ℚ) / 10 ^ 9)) := by
    rw [h]; rfl

/-- Claim C5: `to_chrono` converts the absolute value through the
system-duration bridge and the external library's conversion, errors
exactly when one of those two steps errors (the error passed through
unchanged), and on success negates the result exactly when the original
duration is negative. -/
theorem C5_to_chrono_characterization (d : FloatDuration) :
    (∀ e : DurationError, d.to_chrono = Except.error e ↔
      (d.fabs.to_std = Except.error e ∨
        ∃ sd, d.fabs.to_std = Except.ok sd ∧ chronoFromStd sd = Except.error e)) ∧
    (∀ cd : ChronoDuration, d.to_chrono = Except.ok cd ↔
      ∃ sd cd0, d.fabs.to_std = Except.ok sd ∧ chronoFromStd sd = Except.ok cd0 ∧
        cd = if d.is_negative then cd0.cneg else cd0) := by
  unfold FloatDuration.to_chrono
  cases h1 : d.fabs.to_std with
  | error e1 =>
    constructor
    · intro e; simp
    · intro cd; simp
  | ok sd1 =>
    cases h2 : chronoFromStd sd1 with
    | error e2 =>
      constructor
      · intro e; simp [h2]
      · intro cd; simp [h2]
    | ok cd1 =>
      by_cases hn : d.is_negative <;> constructor <;> intro x <;> simp [h2, hn, eq_comm]

/-- Claim C5 witness: the `Ok` characterization instantiated at
`FloatDuration::nanoseconds(-20.0)`. -/
theorem C5_to_chrono_witness :
    (FloatDuration.nanoseconds (F64.finite true 20)).to_chrono =
        Except.ok (⟨-1, 999999980⟩ : ChronoDuration) ↔
      ∃ sd cd0,
        (FloatDuration.nanoseconds (F64.finite true 20)).fabs.to_std = Except.ok sd ∧
        chronoFromStd sd = Except.ok cd0 ∧
        (⟨-1, 999999980⟩ : ChronoDuration) =
          if (FloatDuration.nanoseconds (F64.finite true 20)).is_negative then cd0.cneg
          else cd0 :=
  (C5_to_chrono_characterization (FloatDuration.nanoseconds (F64.finite true 20))).2
    (⟨-1, 999999980⟩ : ChronoDuration)

/-- Claim C6: the calendar round trip `from_chrono (to_chrono d) = d` at
a representative positive duration (150 s) and a representative negative
duration (-20 ns), both within the nanosecond-representable range. -/
theorem C6_chrono_round_trip :
    (FloatDuration.to_chrono (FloatDuration.seconds (F64.finite false 150))).map
        FloatDuration.from_chrono =
      Except.ok (FloatDuration.seconds (F64.finite false 150)) ∧
    (FloatDuration.to_chrono (FloatDuration.nanoseconds (F64.finite true 20))).map
        FloatDuration.from_chrono =
      Except.ok (FloatDuration.nanoseconds (F64.finite true 20)) := by
  constructor
  · decide
  · decide

/-- Claim C7: coherence of the unit constructors and accessors under the
fixed conversion constants, under the crate's own `==`
(`FloatDuration::hours(3.0).as_minutes() == 180.0` and the four
constructor identities). -/
theorem C7_unit_coherence :
    F64.beq (FloatDuration.as_minutes (FloatDuration.hours (F64.finite false 3)))
        (F64.finite false 180) = true ∧
    FloatDuration.beq (FloatDuration.days (F64.finite false (mkRat 3 2)))
        (FloatDuration.hours (F64.finite false 36)) = true ∧
    FloatDuration.beq (FloatDuration.minutes (F64.finite false 30))
        (FloatDuration.hours (F64.finite false (mkRat 1 2))) = true ∧
    FloatDuration.beq (FloatDuration.microseconds (F64.finite false 300))
        (FloatDuration.milliseconds (F64.finite false (mkRat 3 10))) = true ∧
    FloatDuration.beq (FloatDuration.nanoseconds (F64.finite false 1000))
        (FloatDuration.microseconds (F64.finite false 1)) = true := by
  refine ⟨by decide, by decide, by decide, by decide, by decide⟩

/-- Claim C8: the four arithmetic identities, under the crate's own `==`:
`minutes(5) + seconds(30) == seconds(330)`, `hours(3) * 2.5 == hours(7.5)`,
`days(3) / 3 - hours(2) == hours(22)`, and the duration-by-duration
division `minutes(10) / seconds(60) == 10.0`. -/
theorem C8_arithmetic_identities :
    FloatDuration.beq
        (FloatDuration.oadd (FloatDuration.minutes (F64.finite false 5))
          (FloatDuration.seconds (F64.finite false 30)))
        (FloatDuration.seconds (F64.finite false 330)) = true ∧
    FloatDuration.beq
        (FloatDuration.omul (FloatDuration.hours (F64.finite false 3))
          (F64.finite false (mkRat 5 2)))
        (FloatDuration.hours (F64.finite false (mkRat 15 2))) = true ∧
    FloatDuration.beq
        (FloatDuration.osub
          (FloatDuration.odiv (FloatDuration.days (F64.finite false 3)) (F64.finite false 3))
          (FloatDuration.hours (F64.finite false 2)))
        (FloatDuration.hours (F64.finite false 22)) = true ∧
    F64.beq
        (FloatDuration.odiv_dur (FloatDuration.minutes (F64.finite false 10))
          (FloatDuration.seconds (F64.finite false 60)))
        (F64.finite false 10) = true := by
  refine ⟨by decide, by decide, by decide, by decide⟩

/-- Claim C9: the arithmetic operations are total functions in the
embedding; in particular dividing any duration by the scalar `0.0`, or by
the zero duration, returns a value (a signed infinity or NaN, never an
error): `1.0 s / 0.0 = +inf`, `-5.0 s / 0.0 = -inf`, `0 / 0 = NaN`. -/
theorem C9_division_by_zero_total :
    (∀ d : FloatDuration,
      (FloatDuration.odiv d (F64.finite false 0)).secs.isFinite = false ∧
      F64.isFinite (FloatDuration.odiv_dur d FloatDuration.zero) = false) ∧
    FloatDuration.odiv (FloatDuration.seconds (F64.finite false 1)) (F64.finite false 0) =
      FloatDuration.seconds (F64.inf false) ∧
    FloatDuration.odiv (FloatDuration.seconds (F64.finite true 5)) (F64.finite false 0) =
      FloatDuration.seconds (F64.inf true) ∧
    FloatDuration.odiv_dur FloatDuration.zero FloatDuration.zero = F64.nan :=
  ⟨fun d => ⟨div_zero_not_finite d.secs, div_zero_not_finite d.secs⟩,
   by decide, by decide, by decide⟩

/-- Claim C10: zero durations carry a sign: `zero()` is zero and
positive; `seconds(-0.0)` is zero, negative, not positive, and compares
equal to `zero()` under the crate's `==`. -/
theorem C10_signed_zero :
    FloatDuration.zero.is_zero = true ∧
    FloatDuration.zero.is_positive = true ∧
    (FloatDuration.seconds (F64.finite true 0)).is_zero = true ∧
    (FloatDuration.seconds (F64.finite true 0)).is_negative = true ∧
    (FloatDuration.seconds (F64.finite true 0)).is_positive = false ∧
    (FloatDuration.seconds (F64.finite true 0)).beq FloatDuration.zero = true := by
  refine ⟨by decide, by decide, by decide, by decide, by decide, by decide⟩

end Claims

end FloatDurationSpec